import Mathlib

/-
  Verification of the uprobe deployment and lifecycle manager of the Pixie
  observability platform (stirling socket tracer).

  The development shallowly embeds the data structures and operations of
  `src/stirling/source_connectors/socket_tracer/uprobe_manager.h` and the
  behaviour exercised by `src/stirling/utils/detect_application_bpf_test.cc`.
  Definitions coming from code whose implementation file is not part of the
  tree (`uprobe_manager.cc`, `bcc_wrapper.cc`, the Stirling init loop) are
  modelled from the specification and are marked as such in their doc
  comments.
-/

namespace PixieSpec

/-! ## UserSpaceManagedBPFMap (uprobe_manager.h, lines 63-102)

A wrapper around BPF maps that are exclusively written by user-space.
The kernel hash table is modelled as a partial function from keys to values
(both `Nat`, standing for `TKeyType`/`TValueType`); the userspace
`shadow_keys_` member (an `absl::flat_hash_set`) is modelled as a `Finset`. -/

structure UserSpaceManagedBPFMap where
  kernelMap : Nat → Option Nat
  shadow_keys : Finset Nat

/-- The state of a freshly created map: the kernel table and the shadow set
are both empty. -/
def emptyUSMMap : UserSpaceManagedBPFMap :=
  ⟨fun _ => none, ∅⟩

/-- `UserSpaceManagedBPFMap::UpdateValue` (uprobe_manager.h lines 75-82):
`map_->update_value(key, value)` is issued; `ok` records whether the returned
`ebpf::StatusTuple` was OK.  On success the kernel table now holds the record
and `shadow_keys_.insert(key)` runs; on failure only a warning is logged and
neither the kernel table nor the shadow set changes. -/
def UpdateValue (m : UserSpaceManagedBPFMap) (key value : Nat) (ok : Bool) :
    UserSpaceManagedBPFMap :=
  if ok then
    ⟨fun k => if k = key then some value else m.kernelMap k, insert key m.shadow_keys⟩
  else
    m

/-- `UserSpaceManagedBPFMap::RemoveValue` (uprobe_manager.h lines 84-89):
consults `shadow_keys_` first; only when the key is present does it issue
`map_->remove_value(key)` and erase the key from the shadow set. -/
def RemoveValue (m : UserSpaceManagedBPFMap) (key : Nat) : UserSpaceManagedBPFMap :=
  if key ∈ m.shadow_keys then
    ⟨fun k => if k = key then none else m.kernelMap k, m.shadow_keys.erase key⟩
  else
    m

/-- One operation against a `UserSpaceManagedBPFMap`: an `UpdateValue` call
(with the kernel's success verdict `ok`) or a `RemoveValue` call. -/
inductive MapOp where
  | update (key value : Nat) (ok : Bool)
  | remove (key : Nat)

/-- Apply one operation to the map state. -/
def applyOp (m : UserSpaceManagedBPFMap) : MapOp → UserSpaceManagedBPFMap
  | MapOp.update key value ok => UpdateValue m key value ok
  | MapOp.remove key => RemoveValue m key

/-- Apply a finite sequence of operations starting from the empty map. -/
def applyOps (ops : List MapOp) : UserSpaceManagedBPFMap :=
  ops.foldl applyOp emptyUSMMap

/-- The kernel `remove_value` syscalls an operation issues from state `m`:
`RemoveValue` issues the delete exactly when the key is in the shadow set;
`UpdateValue` issues none. -/
def deletesIssued (m : UserSpaceManagedBPFMap) : MapOp → List Nat
  | MapOp.update _ _ _ => []
  | MapOp.remove key => if key ∈ m.shadow_keys then [key] else []

/-- The shadow-set invariant: the userspace shadow set holds exactly the keys
present in the kernel table. -/
def ShadowInv (m : UserSpaceManagedBPFMap) : Prop :=
  ∀ k, k ∈ m.shadow_keys ↔ (m.kernelMap k).isSome

lemma shadowInv_empty : ShadowInv emptyUSMMap := by
  intro k
  simp [emptyUSMMap]

lemma shadowInv_update (m : UserSpaceManagedBPFMap) (key value : Nat) (ok : Bool)
    (h : ShadowInv m) : ShadowInv (UpdateValue m key value ok) := by
  cases ok with
  | false => simpa [UpdateValue] using h
  | true =>
    intro k
    by_cases hk : k = key
    · subst hk
      simp [UpdateValue]
    · simp [UpdateValue, hk, h k]

lemma shadowInv_remove (m : UserSpaceManagedBPFMap) (key : Nat)
    (h : ShadowInv m) : ShadowInv (RemoveValue m key) := by
  by_cases hmem : key ∈ m.shadow_keys
  · intro k
    by_cases hk : k = key
    · subst hk
      simp [RemoveValue, hmem]
    · simp [RemoveValue, hmem, hk, h k]
  · simpa [RemoveValue, hmem] using h

lemma shadowInv_applyOp (m : UserSpaceManagedBPFMap) (op : MapOp)
    (h : ShadowInv m) : ShadowInv (applyOp m op) := by
  cases op with
  | update key value ok => exact shadowInv_update m key value ok h
  | remove key => exact shadowInv_remove m key h

lemma shadowInv_foldl (ops : List MapOp) :
    ∀ m : UserSpaceManagedBPFMap, ShadowInv m → ShadowInv (ops.foldl applyOp m) := by
  induction ops with
  | nil => intro m h; simpa using h
  | cons op rest ih =>
    intro m h
    exact ih (applyOp m op) (shadowInv_applyOp m op h)

lemma shadowInv_applyOps (ops : List MapOp) : ShadowInv (applyOps ops) :=
  shadowInv_foldl ops emptyUSMMap shadowInv_empty

/-- Claim C1: after any finite sequence of `UpdateValue`/`RemoveValue`
operations starting from the empty map, the userspace shadow key set equals
the set of keys present in the kernel map; and any key that is the subject of
a kernel delete issued by a further operation is a member of the shadow set
(hence, by the first part, present in the kernel map) when the delete is
issued. -/
theorem shadow_set_invariant (ops : List MapOp) (k : Nat) (op : MapOp) :
    (k ∈ (applyOps ops).shadow_keys ↔ ((applyOps ops).kernelMap k).isSome) ∧
    (k ∈ deletesIssued (applyOps ops) op → k ∈ (applyOps ops).shadow_keys) := by
  refine ⟨shadowInv_applyOps ops k, ?_⟩
  intro hk
  cases op with
  | update key value ok => simp [deletesIssued] at hk
  | remove key =>
    by_cases hmem : key ∈ (applyOps ops).shadow_keys
    · simp [deletesIssued, hmem] at hk
      simpa [hk] using hmem
    · simp [deletesIssued, hmem] at hk

/-- Witness for C1: after `UpdateValue 3 9` (kernel write succeeded), a
`RemoveValue 3` issues a kernel delete for key 3, and key 3 is indeed in the
shadow set at that point. -/
theorem shadow_set_invariant_witness :
    3 ∈ deletesIssued (applyOps [MapOp.update 3 9 true]) (MapOp.remove 3) ∧
    3 ∈ (applyOps [MapOp.update 3 9 true]).shadow_keys := by
  refine ⟨by decide, ?_⟩
  exact (shadow_set_invariant [MapOp.update 3 9 true] 3 (MapOp.remove 3)).2 (by decide)

/-- Counterexample for C2 as stated: when the kernel rejects the update
(`s.ok()` false, e.g. the map is full), `UpdateValue` neither writes the
record nor inserts the pid into the shadow set, so on return the pid need not
be a member of the shadow set. -/
theorem updatevalue_unconditional_counterexample :
    ¬ (((UpdateValue emptyUSMMap 5 7 false).kernelMap 5 = some 7) ∧
       5 ∈ (UpdateValue emptyUSMMap 5 7 false).shadow_keys) := by
  decide

/-- Claim C2 (amended): provided the kernel map update succeeds, a call to
`UpdateValue` writes or overwrites the record in the kernel map and inserts
the key (pid) into the in-memory shadow set, so that on return the pid is a
member of the shadow set. -/
theorem updatevalue_writes_and_inserts (m : UserSpaceManagedBPFMap)
    (key value : Nat) (ok : Bool) (h : ok = true) :
    ((UpdateValue m key value ok).kernelMap key = some value) ∧
    key ∈ (UpdateValue m key value ok).shadow_keys := by
  subst h
  constructor
  · simp [UpdateValue]
  · simp [UpdateValue]

/-- Witness for C2's theorem at a concrete successful call. -/
theorem updatevalue_writes_and_inserts_witness :
    ((UpdateValue emptyUSMMap 12345 77 true).kernelMap 12345 = some 77) ∧
    12345 ∈ (UpdateValue emptyUSMMap 12345 77 true).shadow_keys :=
  updatevalue_writes_and_inserts emptyUSMMap 12345 77 true (by decide)

/-! ## Probe templates and specs (uprobe_manager.h, bcc_wrapper types)

`UProbeTmpl` (uprobe_manager.h lines 56-61) describes a uprobe template with a
symbol predicate, a probe handler name and an attach type.  `UProbeSpec` is the
fully concrete form used for the OpenSSL dynamic-library probes (binary path
plus exact symbol). -/

/-- `obj_tools::SymbolMatchType`: how a template's symbol is matched against
the binary's symbol table. -/
inductive SymbolMatchType where
  | kExact
  | kPrefix
  | kSuffix
deriving DecidableEq, Repr

/-- `bpf_tools::BPFProbeAttachType`: entry probe, epilogue-style return probe
(kretprobe), or one return probe per `ret` instruction (used for Go, whose
runtime reuses stacks and makes epilogue-based kretprobes unsafe). -/
inductive BPFProbeAttachType where
  | kEntry
  | kReturn
  | kReturnInsts
deriving DecidableEq, Repr

/-- `UProbeTmpl` (uprobe_manager.h lines 56-61).  Fields in source order:
`symbol`, `match_type`, `probe_fn`, `attach_type` (default `kEntry`). -/
structure UProbeTmpl where
  symbol : String
  match_type : SymbolMatchType
  probe_fn : String
  attach_type : BPFProbeAttachType
deriving DecidableEq, Repr

/-- `bpf_tools::UProbeSpec` as initialized in `kOpenSSLUProbes`
(uprobe_manager.h lines 338-371): binary path, exact symbol, attach type,
probe handler. -/
structure UProbeSpec where
  binary_path : String
  symbol : String
  attach_type : BPFProbeAttachType
  probe_fn : String
deriving DecidableEq, Repr

/-- `UProbeManager::kGoRuntimeUProbeTmpls` (uprobe_manager.h lines 145-152). -/
def kGoRuntimeUProbeTmpls : List UProbeTmpl :=
  [⟨"runtime.casgstatus", SymbolMatchType.kSuffix, "probe_runtime_casgstatus",
    BPFProbeAttachType.kEntry⟩]

/-- `UProbeManager::kHTTP2ProbeTmpls` (uprobe_manager.h lines 154-218). -/
def kHTTP2ProbeTmpls : List UProbeTmpl :=
  [⟨"google.golang.org/grpc/internal/transport.(*http2Client).operateHeaders",
    SymbolMatchType.kSuffix, "probe_http2_client_operate_headers", BPFProbeAttachType.kEntry⟩,
   ⟨"google.golang.org/grpc/internal/transport.(*http2Server).operateHeaders",
    SymbolMatchType.kSuffix, "probe_http2_server_operate_headers", BPFProbeAttachType.kEntry⟩,
   ⟨"google.golang.org/grpc/internal/transport.(*loopyWriter).writeHeader",
    SymbolMatchType.kSuffix, "probe_loopy_writer_write_header", BPFProbeAttachType.kEntry⟩,
   ⟨"golang.org/x/net/http2.(*Framer).WriteDataPadded",
    SymbolMatchType.kSuffix, "probe_http2_framer_write_data", BPFProbeAttachType.kEntry⟩,
   ⟨"golang.org/x/net/http2.(*Framer).checkFrameOrder",
    SymbolMatchType.kSuffix, "probe_http2_framer_check_frame_order", BPFProbeAttachType.kEntry⟩,
   ⟨"net/http.(*http2Framer).WriteDataPadded",
    SymbolMatchType.kSuffix, "probe_http_http2framer_write_data", BPFProbeAttachType.kEntry⟩,
   ⟨"net/http.(*http2Framer).checkFrameOrder",
    SymbolMatchType.kSuffix, "probe_http_http2framer_check_frame_order", BPFProbeAttachType.kEntry⟩,
   ⟨"net/http.(*http2writeResHeaders).writeFrame",
    SymbolMatchType.kSuffix, "probe_http_http2writeResHeaders_write_frame", BPFProbeAttachType.kEntry⟩,
   ⟨"golang.org/x/net/http2/hpack.(*Encoder).WriteField",
    SymbolMatchType.kSuffix, "probe_hpack_header_encoder", BPFProbeAttachType.kEntry⟩,
   ⟨"net/http.(*http2serverConn).processHeaders",
    SymbolMatchType.kSuffix, "probe_http_http2serverConn_processHeaders", BPFProbeAttachType.kEntry⟩]

/-- `UProbeManager::kGoTLSUProbeTmpls` (uprobe_manager.h lines 221-246). -/
def kGoTLSUProbeTmpls : List UProbeTmpl :=
  [⟨"crypto/tls.(*Conn).Write", SymbolMatchType.kSuffix, "probe_entry_tls_conn_write",
    BPFProbeAttachType.kEntry⟩,
   ⟨"crypto/tls.(*Conn).Write", SymbolMatchType.kSuffix, "probe_return_tls_conn_write",
    BPFProbeAttachType.kReturnInsts⟩,
   ⟨"crypto/tls.(*Conn).Read", SymbolMatchType.kSuffix, "probe_entry_tls_conn_read",
    BPFProbeAttachType.kEntry⟩,
   ⟨"crypto/tls.(*Conn).Read", SymbolMatchType.kSuffix, "probe_return_tls_conn_read",
    BPFProbeAttachType.kReturnInsts⟩]

/-- `UProbeManager::kNodeOpenSSLUProbeTmplsV12_3_1` (uprobe_manager.h lines
255-293): entry and return probes on the `node::TLSWrap` constructor,
`ClearIn` and `ClearOut`, matched by mangled-name prefix. -/
def kNodeOpenSSLUProbeTmplsV12_3_1 : List UProbeTmpl :=
  [⟨"_ZN4node7TLSWrapC2E", SymbolMatchType.kPrefix, "probe_entry_TLSWrap_memfn",
    BPFProbeAttachType.kEntry⟩,
   ⟨"_ZN4node7TLSWrapC2E", SymbolMatchType.kPrefix, "probe_ret_TLSWrap_memfn",
    BPFProbeAttachType.kReturn⟩,
   ⟨"_ZN4node7TLSWrap7ClearInE", SymbolMatchType.kPrefix, "probe_entry_TLSWrap_memfn",
    BPFProbeAttachType.kEntry⟩,
   ⟨"_ZN4node7TLSWrap7ClearInE", SymbolMatchType.kPrefix, "probe_ret_TLSWrap_memfn",
    BPFProbeAttachType.kReturn⟩,
   ⟨"_ZN4node7TLSWrap8ClearOutE", SymbolMatchType.kPrefix, "probe_entry_TLSWrap_memfn",
    BPFProbeAttachType.kEntry⟩,
   ⟨"_ZN4node7TLSWrap8ClearOutE", SymbolMatchType.kPrefix, "probe_ret_TLSWrap_memfn",
    BPFProbeAttachType.kReturn⟩]

/-- `UProbeManager::kNodeOpenSSLUProbeTmplsV15_0_0` (uprobe_manager.h lines
295-333): same six probes with the `node::crypto::TLSWrap` mangled-name
prefix used by Node 15.0 and later. -/
def kNodeOpenSSLUProbeTmplsV15_0_0 : List UProbeTmpl :=
  [⟨"_ZN4node6crypto7TLSWrapC2E", SymbolMatchType.kPrefix, "probe_entry_TLSWrap_memfn",
    BPFProbeAttachType.kEntry⟩,
   ⟨"_ZN4node6crypto7TLSWrapC2E", SymbolMatchType.kPrefix, "probe_ret_TLSWrap_memfn",
    BPFProbeAttachType.kReturn⟩,
   ⟨"_ZN4node6crypto7TLSWrap7ClearInE", SymbolMatchType.kPrefix, "probe_entry_TLSWrap_memfn",
    BPFProbeAttachType.kEntry⟩,
   ⟨"_ZN4node6crypto7TLSWrap7ClearInE", SymbolMatchType.kPrefix, "probe_ret_TLSWrap_memfn",
    BPFProbeAttachType.kReturn⟩,
   ⟨"_ZN4node6crypto7TLSWrap8ClearOutE", SymbolMatchType.kPrefix, "probe_entry_TLSWrap_memfn",
    BPFProbeAttachType.kEntry⟩,
   ⟨"_ZN4node6crypto7TLSWrap8ClearOutE", SymbolMatchType.kPrefix, "probe_ret_TLSWrap_memfn",
    BPFProbeAttachType.kReturn⟩]

/-- `UProbeManager::kOpenSSLUProbes` (uprobe_manager.h lines 338-371): the
five concrete probes on the canonical libssl dynamic-library path. -/
def kOpenSSLUProbes : List UProbeSpec :=
  [⟨"/usr/lib/x86_64-linux-gnu/libssl.so.1.1", "SSL_write", BPFProbeAttachType.kEntry,
    "probe_entry_SSL_write"⟩,
   ⟨"/usr/lib/x86_64-linux-gnu/libssl.so.1.1", "SSL_write", BPFProbeAttachType.kReturn,
    "probe_ret_SSL_write"⟩,
   ⟨"/usr/lib/x86_64-linux-gnu/libssl.so.1.1", "SSL_read", BPFProbeAttachType.kEntry,
    "probe_entry_SSL_read"⟩,
   ⟨"/usr/lib/x86_64-linux-gnu/libssl.so.1.1", "SSL_read", BPFProbeAttachType.kReturn,
    "probe_ret_SSL_read"⟩,
   ⟨"/usr/lib/x86_64-linux-gnu/libssl.so.1.1", "SSL_new", BPFProbeAttachType.kReturn,
    "probe_ret_SSL_new"⟩]

/-- Claim C6: the OpenSSL dynamic-library probe group consists of exactly five
probes on the canonical libssl path: entry and return on `SSL_write`, entry
and return on `SSL_read`, and a single return probe on `SSL_new`, with the
stated handler names. -/
theorem openssl_dynlib_probe_group :
    kOpenSSLUProbes.length = 5 ∧
    kOpenSSLUProbes.all
      (fun p => p.binary_path == "/usr/lib/x86_64-linux-gnu/libssl.so.1.1") = true ∧
    kOpenSSLUProbes.map (fun p => (p.symbol, p.attach_type, p.probe_fn)) =
      [("SSL_write", BPFProbeAttachType.kEntry, "probe_entry_SSL_write"),
       ("SSL_write", BPFProbeAttachType.kReturn, "probe_ret_SSL_write"),
       ("SSL_read", BPFProbeAttachType.kEntry, "probe_entry_SSL_read"),
       ("SSL_read", BPFProbeAttachType.kReturn, "probe_ret_SSL_read"),
       ("SSL_new", BPFProbeAttachType.kReturn, "probe_ret_SSL_new")] := by
  refine ⟨rfl, ?_, rfl⟩
  decide

/-! ## Template expansion to concrete probes (C4) -/

/-- A concrete attached probe for one matched symbol: resolved file offset,
attach type, and probe handler name. -/
def ResolvedProbe := Nat × BPFProbeAttachType × String
deriving DecidableEq

/-- Modelled from the spec: the offset-resolution step of
`UProbeManager::AttachUProbeTmpl` (implemented in uprobe_manager.cc, which is
not part of the tree).  For a symbol with entry offset `entryOff` and `ret`
instruction offsets `retOffsets`: an entry template yields one probe at the
entry offset; an epilogue-style return template yields one kretprobe for the
function; a return-at-every-ret-instruction template yields one probe per
`ret` offset. -/
def expandTmpl (entryOff : Nat) (retOffsets : List Nat) (t : UProbeTmpl) :
    List ResolvedProbe :=
  match t.attach_type with
  | BPFProbeAttachType.kEntry => [(entryOff, BPFProbeAttachType.kEntry, t.probe_fn)]
  | BPFProbeAttachType.kReturn => [(entryOff, BPFProbeAttachType.kReturn, t.probe_fn)]
  | BPFProbeAttachType.kReturnInsts =>
      retOffsets.map (fun off => (off, BPFProbeAttachType.kReturnInsts, t.probe_fn))

/-- Modelled from the spec: the probes a template group deploys for one
matched symbol `sym` of a binary (the per-template loop of
`AttachUProbeTmpl`). -/
def probesForSymbol (tmpls : List UProbeTmpl) (sym : String) (entryOff : Nat)
    (retOffsets : List Nat) : List ResolvedProbe :=
  (tmpls.filter (fun t => t.symbol == sym)).foldl
    (fun acc t => acc ++ expandTmpl entryOff retOffsets t) []

/-- Claim C4: the Go TLS probe-template group consists exactly of an entry
probe and a return-at-every-ret-instruction probe for each of
`crypto/tls.(*Conn).Write` and `crypto/tls.(*Conn).Read`; deployment on a
function with ret offsets `retOffsets` produces one entry probe plus one
`kReturnInsts` probe per ret offset (hence `retOffsets.length` return probes),
and no epilogue-style (`kReturn`) probe appears in the group. -/
theorem go_tls_probe_group (entryOff : Nat) (retOffsets : List Nat) :
    kGoTLSUProbeTmpls.map (fun t => (t.symbol, t.attach_type)) =
      [("crypto/tls.(*Conn).Write", BPFProbeAttachType.kEntry),
       ("crypto/tls.(*Conn).Write", BPFProbeAttachType.kReturnInsts),
       ("crypto/tls.(*Conn).Read", BPFProbeAttachType.kEntry),
       ("crypto/tls.(*Conn).Read", BPFProbeAttachType.kReturnInsts)] ∧
    probesForSymbol kGoTLSUProbeTmpls "crypto/tls.(*Conn).Write" entryOff retOffsets =
      (entryOff, BPFProbeAttachType.kEntry, "probe_entry_tls_conn_write") ::
        retOffsets.map
          (fun off => (off, BPFProbeAttachType.kReturnInsts, "probe_return_tls_conn_write")) ∧
    probesForSymbol kGoTLSUProbeTmpls "crypto/tls.(*Conn).Read" entryOff retOffsets =
      (entryOff, BPFProbeAttachType.kEntry, "probe_entry_tls_conn_read") ::
        retOffsets.map
          (fun off => (off, BPFProbeAttachType.kReturnInsts, "probe_return_tls_conn_read")) ∧
    kGoTLSUProbeTmpls.countP (fun t => t.attach_type == BPFProbeAttachType.kReturn) = 0 := by
  refine ⟨rfl, ?_, ?_, by decide⟩
  · simp [probesForSymbol, kGoTLSUProbeTmpls, expandTmpl]
  · simp [probesForSymbol, kGoTLSUProbeTmpls, expandTmpl]

/-! ## Node.js version split (C5) -/

/-- `SemVer` (src/stirling/utils/detect_application.h collaborator): a
major.minor.patch version triple. -/
structure SemVer where
  major : Nat
  minor : Nat
  patch : Nat
deriving DecidableEq, Repr

/-- Lexicographic strict order on semantic versions. -/
def semVerLt (a b : SemVer) : Bool :=
  if a.major ≠ b.major then a.major < b.major
  else if a.minor ≠ b.minor then a.minor < b.minor
  else a.patch < b.patch

/-- The Node version at which `TLSWrap` moved into the `node::crypto`
namespace; the selection threshold named in the spec ("pre-15.0 vs ≥ 15.0"). -/
def kNodeVersionWithNewTLSWrap : SemVer := ⟨15, 0, 0⟩

/-- Modelled from the spec: `UProbeManager::GetNodeOpensslUProbeTmpls`
(declared at uprobe_manager.h line 335, implemented in uprobe_manager.cc,
which is not part of the tree).  Selects between the two symbol-prefix
variants by version threshold: versions before 15.0 get the
`_ZN4node7TLSWrap` templates, versions 15.0 and later the
`_ZN4node6crypto7TLSWrap` templates. -/
def GetNodeOpensslUProbeTmpls (ver : SemVer) : List UProbeTmpl :=
  if semVerLt ver kNodeVersionWithNewTLSWrap then kNodeOpenSSLUProbeTmplsV12_3_1
  else kNodeOpenSSLUProbeTmplsV15_0_0

/-- Claim C5: template selection for Node.js is by the 15.0 version
threshold; each selected group is the six `TLSWrap` member-function probes
(entry and return on the constructor, `ClearIn` and `ClearOut`), with mangled
symbol prefix `_ZN4node7TLSWrap` before 15.0 and `_ZN4node6crypto7TLSWrap`
from 15.0 on. -/
theorem node_version_split (ver : SemVer) :
    (semVerLt ver kNodeVersionWithNewTLSWrap = true →
      GetNodeOpensslUProbeTmpls ver = kNodeOpenSSLUProbeTmplsV12_3_1) ∧
    (semVerLt ver kNodeVersionWithNewTLSWrap = false →
      GetNodeOpensslUProbeTmpls ver = kNodeOpenSSLUProbeTmplsV15_0_0) ∧
    kNodeOpenSSLUProbeTmplsV12_3_1.length = 6 ∧
    kNodeOpenSSLUProbeTmplsV15_0_0.length = 6 ∧
    kNodeOpenSSLUProbeTmplsV12_3_1.all
      (fun t => "_ZN4node7TLSWrap".data.isPrefixOf t.symbol.data) = true ∧
    kNodeOpenSSLUProbeTmplsV15_0_0.all
      (fun t => "_ZN4node6crypto7TLSWrap".data.isPrefixOf t.symbol.data) = true ∧
    kNodeOpenSSLUProbeTmplsV12_3_1.map (fun t => (t.attach_type, t.probe_fn)) =
      [(BPFProbeAttachType.kEntry, "probe_entry_TLSWrap_memfn"),
       (BPFProbeAttachType.kReturn, "probe_ret_TLSWrap_memfn"),
       (BPFProbeAttachType.kEntry, "probe_entry_TLSWrap_memfn"),
       (BPFProbeAttachType.kReturn, "probe_ret_TLSWrap_memfn"),
       (BPFProbeAttachType.kEntry, "probe_entry_TLSWrap_memfn"),
       (BPFProbeAttachType.kReturn, "probe_ret_TLSWrap_memfn")] ∧
    kNodeOpenSSLUProbeTmplsV15_0_0.map (fun t => (t.attach_type, t.probe_fn)) =
      kNodeOpenSSLUProbeTmplsV12_3_1.map (fun t => (t.attach_type, t.probe_fn)) := by
  refine ⟨?_, ?_, rfl, rfl, by decide, by decide, rfl, rfl⟩
  · intro h
    simp [GetNodeOpensslUProbeTmpls, h]
  · intro h
    simp [GetNodeOpensslUProbeTmpls, h]

/-- Witness for C5: Node 12.3.1 selects the `_ZN4node7TLSWrap` templates and
Node 15.0.0 selects the `_ZN4node6crypto7TLSWrap` templates. -/
theorem node_version_split_witness :
    semVerLt ⟨12, 3, 1⟩ kNodeVersionWithNewTLSWrap = true ∧
    GetNodeOpensslUProbeTmpls ⟨12, 3, 1⟩ = kNodeOpenSSLUProbeTmplsV12_3_1 ∧
    semVerLt ⟨15, 0, 0⟩ kNodeVersionWithNewTLSWrap = false ∧
    GetNodeOpensslUProbeTmpls ⟨15, 0, 0⟩ = kNodeOpenSSLUProbeTmplsV15_0_0 :=
  ⟨by decide, (node_version_split ⟨12, 3, 1⟩).1 (by decide),
   by decide, (node_version_split ⟨15, 0, 0⟩).2.1 (by decide)⟩

/-! ## Deploy-pass idempotence (C3)

`UProbeManager::DeployUProbes` (declared at uprobe_manager.h lines 373-391)
and the probed-binaries bookkeeping sets (`openssl_probed_binaries_` and
friends, lines 537-545) are implemented in uprobe_manager.cc, which is not
part of the tree; the pass is modelled from the spec. -/

/-- An attach key: (binary, resolved offset, handler name).  The attached
probe invariant keeps exactly one kernel handle per such key. -/
def AttachKey := String × Nat × String
deriving DecidableEq

/-- Modelled from the spec: the idempotency guard of the attacher — an attach
for a key already in the attached set is a no-op; otherwise the probe is
attached and the key recorded. -/
def attachIfAbsent (attached : List AttachKey) (k : AttachKey) : List AttachKey :=
  if k ∈ attached then attached else attached ++ [k]

/-- Modelled from the spec: one deployment pass of
`UProbeManager::DeployUProbes` over a UPID set.  `env pid` gives the attach
keys the classification and resolution steps produce for `pid` (a pure
function of the process's binary, stable across passes); the pass attaches
every not-yet-attached key and never detaches. -/
def deployPass (env : Nat → List AttachKey) (attached : List AttachKey)
    (pids : List Nat) : List AttachKey :=
  pids.foldl (fun acc pid => (env pid).foldl attachIfAbsent acc) attached

/-- Running the deployment pass `n` times on the same UPID set. -/
def deployPassIter (env : Nat → List AttachKey) (attached : List AttachKey)
    (pids : List Nat) : Nat → List AttachKey
  | 0 => attached
  | n + 1 => deployPass env (deployPassIter env attached pids n) pids

lemma mem_attachIfAbsent_of_mem (attached : List AttachKey) (k k' : AttachKey)
    (h : k ∈ attached) : k ∈ attachIfAbsent attached k' := by
  unfold attachIfAbsent
  by_cases hk : k' ∈ attached
  · simpa [hk] using h
  · simp [hk, List.mem_append, h]

lemma mem_foldl_attachIfAbsent_of_mem (ks : List AttachKey) :
    ∀ attached : List AttachKey, ∀ k ∈ attached, k ∈ ks.foldl attachIfAbsent attached := by
  induction ks with
  | nil => intro attached k h; simpa using h
  | cons k' rest ih =>
    intro attached k h
    exact ih (attachIfAbsent attached k') k (mem_attachIfAbsent_of_mem attached k k' h)

lemma mem_foldl_attachIfAbsent_self (ks : List AttachKey) :
    ∀ attached : List AttachKey, ∀ k ∈ ks, k ∈ ks.foldl attachIfAbsent attached := by
  induction ks with
  | nil => intro attached k h; simp at h
  | cons k' rest ih =>
    intro attached k h
    rcases List.mem_cons.mp h with h | h
    · subst h
      refine mem_foldl_attachIfAbsent_of_mem rest (attachIfAbsent attached k) k ?_
      by_cases hk : k ∈ attached
      · simp [attachIfAbsent, hk]
      · simp [attachIfAbsent, hk]
    · exact ih (attachIfAbsent attached k') k h

lemma foldl_attachIfAbsent_eq_of_subset (ks : List AttachKey) :
    ∀ attached : List AttachKey, (∀ k ∈ ks, k ∈ attached) →
      ks.foldl attachIfAbsent attached = attached := by
  induction ks with
  | nil => intro attached _; rfl
  | cons k' rest ih =>
    intro attached h
    have hk : k' ∈ attached := h k' (List.mem_cons_self k' rest)
    have hstep : attachIfAbsent attached k' = attached := by
      simp [attachIfAbsent, hk]
    calc (k' :: rest).foldl attachIfAbsent attached
        = rest.foldl attachIfAbsent (attachIfAbsent attached k') := rfl
      _ = rest.foldl attachIfAbsent attached := by rw [hstep]
      _ = attached := ih attached (fun k hm => h k (List.mem_cons_of_mem k' hm))

lemma deployPass_mono (env : Nat → List AttachKey) (pids : List Nat) :
    ∀ attached : List AttachKey, ∀ k ∈ attached, k ∈ deployPass env attached pids := by
  induction pids with
  | nil => intro attached k h; simpa [deployPass] using h
  | cons pid rest ih =>
    intro attached k h
    exact ih ((env pid).foldl attachIfAbsent attached) k
      (mem_foldl_attachIfAbsent_of_mem (env pid) attached k h)

lemma deployPass_covers (env : Nat → List AttachKey) (pids : List Nat) :
    ∀ attached : List AttachKey, ∀ pid ∈ pids, ∀ k ∈ env pid,
      k ∈ deployPass env attached pids := by
  induction pids with
  | nil => intro attached pid h; simp at h
  | cons pid' rest ih =>
    intro attached pid hmem k hk
    rcases List.mem_cons.mp hmem with h | h
    · subst h
      exact deployPass_mono env rest ((env pid).foldl attachIfAbsent attached) k
        (mem_foldl_attachIfAbsent_self (env pid) attached k hk)
    · exact ih ((env pid').foldl attachIfAbsent attached) pid h k hk

lemma deployPass_eq_of_covered (env : Nat → List AttachKey) (pids : List Nat) :
    ∀ attached : List AttachKey, (∀ pid ∈ pids, ∀ k ∈ env pid, k ∈ attached) →
      deployPass env attached pids = attached := by
  induction pids with
  | nil => intro attached _; rfl
  | cons pid' rest ih =>
    intro attached h
    have hstep : (env pid').foldl attachIfAbsent attached = attached :=
      foldl_attachIfAbsent_eq_of_subset (env pid') attached
        (h pid' (List.mem_cons_self pid' rest))
    calc deployPass env attached (pid' :: rest)
        = deployPass env ((env pid').foldl attachIfAbsent attached) rest := rfl
      _ = deployPass env attached rest := by rw [hstep]
      _ = attached := ih attached (fun pid hp k hk => h pid (List.mem_cons_of_mem pid' hp) k hk)

lemma deployPass_idem (env : Nat → List AttachKey) (attached : List AttachKey)
    (pids : List Nat) :
    deployPass env (deployPass env attached pids) pids = deployPass env attached pids :=
  deployPass_eq_of_covered env pids (deployPass env attached pids)
    (fun pid hp k hk => deployPass_covers env pids attached pid hp k hk)

/-- Claim C3: running the deployment pass `n ≥ 1` times on the same UPID set
yields the same attached-probe set as running it once; the pass never removes
an attached probe (no extra detach), and a second attach for a key already in
the (binary, offset, handler) set is a no-op. -/
theorem deploy_pass_idempotent (env : Nat → List AttachKey)
    (attached : List AttachKey) (pids : List Nat) (n : Nat) (h : 1 ≤ n) :
    deployPassIter env attached pids n = deployPass env attached pids ∧
    (∀ k ∈ attached, k ∈ deployPass env attached pids) ∧
    (∀ s : List AttachKey, ∀ k ∈ s, attachIfAbsent s k = s) := by
  refine ⟨?_, deployPass_mono env pids attached, ?_⟩
  · induction n with
    | zero => exact absurd h (by decide)
    | succ m ih =>
      cases Nat.eq_zero_or_pos m with
      | inl hm => subst hm; rfl
      | inr hm =>
        have : deployPassIter env attached pids (m + 1)
            = deployPass env (deployPass env attached pids) pids := by
          rw [show deployPassIter env attached pids (m + 1)
              = deployPass env (deployPassIter env attached pids m) pids from rfl, ih hm]
        rw [this, deployPass_idem]
  · intro s k hk
    simp [attachIfAbsent, hk]

/-- Witness for C3: a concrete two-pid deployment run three times equals one
run; the sample key stays attached; re-attaching an attached key is a no-op. -/
theorem deploy_pass_idempotent_witness :
    deployPassIter (fun pid => [("/app/server", pid, "probe_entry_tls_conn_write")])
        [("/bin/other", 1, "probe_entry_SSL_write")] [4, 7] 3
      = deployPass (fun pid => [("/app/server", pid, "probe_entry_tls_conn_write")])
        [("/bin/other", 1, "probe_entry_SSL_write")] [4, 7] ∧
    ("/bin/other", 1, "probe_entry_SSL_write")
      ∈ deployPass (fun pid => [("/app/server", pid, "probe_entry_tls_conn_write")])
        [("/bin/other", 1, "probe_entry_SSL_write")] [4, 7] := by
  have h := deploy_pass_idempotent
    (fun pid => [("/app/server", pid, "probe_entry_tls_conn_write")])
    [("/bin/other", 1, "probe_entry_SSL_write")] [4, 7] 3 (by decide)
  exact ⟨h.1, h.2.1 ("/bin/other", 1, "probe_entry_SSL_write") (by decide)⟩

/-! ## Rescan backoff (C7)

`backoff_map_` (uprobe_manager.h lines 529-535) maps each UPID to the
periodicity at which it may be rescanned: "The backoff value starts at 1
(meaning they can be scanned every iteration), and exponentially grows every
time nothing new is found."  The update code lives in uprobe_manager.cc,
which is not part of the tree, so the schedule is modelled from the spec. -/

/-- Outcome of a deployment pass for one UPID. -/
inductive RescanOutcome where
  | new_work
  | no_new_work
deriving DecidableEq, Repr

/-- Modelled from the spec: the per-UPID backoff multiplier update after a
pass.  `factor` is `FLAGS_stirling_rescan_exp_backoff_factor` (declared at
uprobe_manager.h line 44, default 2) and `ceiling` the configured maximum.
On `no_new_work` the multiplier is multiplied by the factor up to the
ceiling; on `new_work`, or when the UPID's mmap-dirty flag is set, it resets
to 1. -/
def backoffOnPass (factor ceiling : Nat) (mmapDirty : Bool) (m : Nat) :
    RescanOutcome → Nat
  | RescanOutcome.new_work => 1
  | RescanOutcome.no_new_work => if mmapDirty then 1 else min (m * factor) ceiling

/-- The multiplier after `n` consecutive `no_new_work` passes (mmap-dirty
never set), starting from the initial value 1. -/
def backoffAfter (factor ceiling : Nat) : Nat → Nat
  | 0 => 1
  | n + 1 =>
      backoffOnPass factor ceiling false (backoffAfter factor ceiling n)
        RescanOutcome.no_new_work

lemma backoffAfter_closed (factor ceiling : Nat) (hf : 1 ≤ factor)
    (hc : 1 ≤ ceiling) (n : Nat) :
    backoffAfter factor ceiling n = min (factor ^ n) ceiling := by
  induction n with
  | zero => simpa [backoffAfter] using Nat.min_eq_left hc
  | succ m ih =>
    have hstep : backoffAfter factor ceiling (m + 1)
        = min (min (factor ^ m) ceiling * factor) ceiling := by
      simp [backoffAfter, backoffOnPass, ih]
    rcases le_or_lt (factor ^ m) ceiling with hle | hlt
    · rw [hstep, Nat.min_eq_left hle, pow_succ]
    · have h1 : min (factor ^ m) ceiling = ceiling := Nat.min_eq_right (Nat.le_of_lt hlt)
      have h2 : ceiling ≤ ceiling * factor := Nat.le_mul_of_pos_right ceiling hf
      have h3 : ceiling ≤ factor ^ (m + 1) := by
        calc ceiling ≤ factor ^ m := Nat.le_of_lt hlt
          _ ≤ factor ^ m * factor := Nat.le_mul_of_pos_right _ hf
          _ = factor ^ (m + 1) := (pow_succ factor m).symm
      rw [hstep, h1, Nat.min_eq_right h2, Nat.min_eq_right h3]

/-- Claim C7: the backoff multiplier starts at 1; under a stream of
`no_new_work` outcomes it is multiplied by the configured factor each pass up
to the configured ceiling (so after `n` such passes it is
`min (factor ^ n) ceiling`); it resets to 1 on `new_work` and whenever the
UPID's mmap-dirty flag is set. -/
theorem backoff_monotonic_and_reset (factor ceiling n : Nat)
    (hf : 1 ≤ factor) (hc : 1 ≤ ceiling) :
    backoffAfter factor ceiling 0 = 1 ∧
    backoffAfter factor ceiling n = min (factor ^ n) ceiling ∧
    (∀ dirty m, backoffOnPass factor ceiling dirty m RescanOutcome.new_work = 1) ∧
    (∀ m o, backoffOnPass factor ceiling true m o = 1) := by
  refine ⟨rfl, backoffAfter_closed factor ceiling hf hc n, ?_, ?_⟩
  · intro dirty m
    rfl
  · intro m o
    cases o with
    | new_work => rfl
    | no_new_work => simp [backoffOnPass]

/-- Witness for C7 with the default factor 2 and ceiling 512: after three
uneventful passes the multiplier is 8 (the spec's scenario 5 reaches 4 after
two). -/
theorem backoff_monotonic_and_reset_witness :
    (1 : Nat) ≤ 2 ∧ (1 : Nat) ≤ 512 ∧
    backoffAfter 2 512 3 = min (2 ^ 3) 512 ∧
    backoffOnPass 2 512 true 8 RescanOutcome.no_new_work = 1 := by
  have h := backoff_monotonic_and_reset 2 512 3 (by decide) (by decide)
  exact ⟨by decide, by decide, h.2.1, h.2.2.2 8 RescanOutcome.no_new_work⟩

/-! ## Status reporting (C8, C9)

The status codes and record shapes come from the status streams consumed in
`src/stirling/utils/detect_application_bpf_test.cc` (`SourceStatusRecord`,
`ProbeStatusRecord`, `ToSourceRecordVector`, `ToProbeRecordVector`). -/

/-- The `px::statuspb::Code` values used by the status tables. -/
inductive StatusCode where
  | OK
  | INTERNAL
  | RESOURCE_UNAVAILABLE
deriving DecidableEq, Repr

/-- A source-status row as read back by `ToSourceRecordVector` in
detect_application_bpf_test.cc. -/
structure SourceStatusRecord where
  source_connector : String
  status : StatusCode
  error : String
  context : String
deriving DecidableEq, Repr

/-- A registered source connector, reduced to what initialization observes:
its registered name and the status its `InitImpl` returns. -/
structure Connector where
  name : String
  initCode : StatusCode
  initError : String
deriving DecidableEq, Repr

/-- The status returned by `FaultyConnector::InitImpl`
(detect_application_bpf_test.cc lines 228-232):
`error::Internal("Initialization failed on purpose.")`. -/
def faultyConnectorInit : StatusCode × String :=
  (StatusCode.INTERNAL, "Initialization failed on purpose.")

/-- A connector whose `InitImpl` returns OK (e.g. `SeqGenConnector`,
`StirlingErrorConnector`). -/
def okConnectorInit : StatusCode × String := (StatusCode.OK, "")

/-- Modelled from the spec: the Stirling init loop (stirling.cc is not part
of the tree).  Initialization emits exactly one source-status row per
registered connector, carrying the code and message its `InitImpl` returned,
with context `"Init"` — as observed by the `SourceConnectorInitOK` and
`SourceConnectorInitError` tests. -/
def initAllConnectors (registry : List Connector) : List SourceStatusRecord :=
  registry.map (fun c => ⟨c.name, c.initCode, c.initError, "Init"⟩)

lemma initAllConnectors_count (registry : List Connector) (c : Connector)
    (hmem : c ∈ registry) (hnd : (registry.map Connector.name).Nodup) :
    (initAllConnectors registry).countP (fun r => r.source_connector == c.name) = 1 := by
  have h1 : (initAllConnectors registry).countP (fun r => r.source_connector == c.name)
      = (registry.map Connector.name).count c.name := by
    unfold initAllConnectors
    rw [List.countP_map, List.count_eq_countP, List.countP_map]
    rfl
  have h3 : (registry.map Connector.name).count c.name = 1 :=
    List.count_eq_one_of_mem hnd (List.mem_map_of_mem Connector.name hmem)
  rw [h1, h3]

/-- Claim C8: during initialization each registered connector produces
exactly one source-status row (names being distinct); a connector whose init
returns the faulty connector's internal error yields the row
(INTERNAL, "Initialization failed on purpose.", context "Init"), and a
connector whose init succeeds yields a row with status OK and context
"Init". -/
theorem source_connector_init_rows (registry : List Connector) (c : Connector)
    (hmem : c ∈ registry) (hnd : (registry.map Connector.name).Nodup) :
    (initAllConnectors registry).countP (fun r => r.source_connector == c.name) = 1 ∧
    ((c.initCode, c.initError) = faultyConnectorInit →
      (⟨c.name, StatusCode.INTERNAL, "Initialization failed on purpose.", "Init"⟩ :
        SourceStatusRecord) ∈ initAllConnectors registry) ∧
    (c.initCode = StatusCode.OK →
      (⟨c.name, StatusCode.OK, c.initError, "Init"⟩ : SourceStatusRecord)
        ∈ initAllConnectors registry) := by
  refine ⟨initAllConnectors_count registry c hmem hnd, ?_, ?_⟩
  · intro h
    have hcode : c.initCode = StatusCode.INTERNAL := congrArg Prod.fst h
    have herr : c.initError = "Initialization failed on purpose." := congrArg Prod.snd h
    have : (⟨c.name, c.initCode, c.initError, "Init"⟩ : SourceStatusRecord)
        ∈ initAllConnectors registry := List.mem_map_of_mem _ hmem
    rwa [hcode, herr] at this
  · intro h
    have : (⟨c.name, c.initCode, c.initError, "Init"⟩ : SourceStatusRecord)
        ∈ initAllConnectors registry := List.mem_map_of_mem _ hmem
    rwa [h] at this

/-- Witness for C8: the registry of the `SourceConnectorInitError` test —
three faulty connectors and the error connector itself — instantiated at the
first faulty connector. -/
theorem source_connector_init_rows_witness :
    ((⟨"sequences0", StatusCode.INTERNAL, "Initialization failed on purpose."⟩ : Connector)
      ∈ ([⟨"sequences0", StatusCode.INTERNAL, "Initialization failed on purpose."⟩,
          ⟨"sequences1", StatusCode.INTERNAL, "Initialization failed on purpose."⟩,
          ⟨"sequences2", StatusCode.INTERNAL, "Initialization failed on purpose."⟩,
          ⟨"stirling_error", StatusCode.OK, ""⟩] : List Connector)) ∧
    (initAllConnectors
        [⟨"sequences0", StatusCode.INTERNAL, "Initialization failed on purpose."⟩,
         ⟨"sequences1", StatusCode.INTERNAL, "Initialization failed on purpose."⟩,
         ⟨"sequences2", StatusCode.INTERNAL, "Initialization failed on purpose."⟩,
         ⟨"stirling_error", StatusCode.OK, ""⟩]).countP
      (fun r => r.source_connector == "sequences0") = 1 ∧
    (⟨"sequences0", StatusCode.INTERNAL, "Initialization failed on purpose.", "Init"⟩ :
        SourceStatusRecord) ∈ initAllConnectors
        [⟨"sequences0", StatusCode.INTERNAL, "Initialization failed on purpose."⟩,
         ⟨"sequences1", StatusCode.INTERNAL, "Initialization failed on purpose."⟩,
         ⟨"sequences2", StatusCode.INTERNAL, "Initialization failed on purpose."⟩,
         ⟨"stirling_error", StatusCode.OK, ""⟩] := by
  have h := source_connector_init_rows
    [⟨"sequences0", StatusCode.INTERNAL, "Initialization failed on purpose."⟩,
     ⟨"sequences1", StatusCode.INTERNAL, "Initialization failed on purpose."⟩,
     ⟨"sequences2", StatusCode.INTERNAL, "Initialization failed on purpose."⟩,
     ⟨"stirling_error", StatusCode.OK, ""⟩]
    ⟨"sequences0", StatusCode.INTERNAL, "Initialization failed on purpose."⟩
    (by decide) (by decide)
  exact ⟨by decide, h.1, h.2.1 (by decide)⟩

/-! ## Probe-status info_json (C9) -/

/-- A JSON value in the `info_json` field (the test expectation uses strings
and integers only). -/
inductive JsonVal where
  | str (s : String)
  | num (n : Int)
deriving DecidableEq, Repr

/-- The printed name of an attach type, as it appears in the `type` field of
the test's expected `info_json`. -/
def attachTypeName : BPFProbeAttachType → String
  | BPFProbeAttachType.kEntry => "kEntry"
  | BPFProbeAttachType.kReturn => "kReturn"
  | BPFProbeAttachType.kReturnInsts => "kReturnInsts"

/-- Modelled from the spec: `bpf_tools::UProbeSpec::ToJSON` (bcc_wrapper.cc
is not part of the tree).  The JSON object is modelled as an ordered field
list; the field set and order follow the expected string of
`StirlingErrorTest::DISABLED_UProbeDeploymentError`
(detect_application_bpf_test.cc lines 515-521): binary, symbol, address,
pid, type, probe_fn. -/
def uprobeSpecToJSON (spec : UProbeSpec) (address : Nat) (pid : Int) :
    List (String × JsonVal) :=
  [("binary", JsonVal.str spec.binary_path),
   ("symbol", JsonVal.str spec.symbol),
   ("address", JsonVal.num address),
   ("pid", JsonVal.num pid),
   ("type", JsonVal.str (attachTypeName spec.attach_type)),
   ("probe_fn", JsonVal.str spec.probe_fn)]

/-- A probe-status row as read back by `ToProbeRecordVector` in
detect_application_bpf_test.cc, with the `info` column as a parsed JSON
field list. -/
structure ProbeStatusRecord where
  source_connector : String
  tracepoint : String
  status : StatusCode
  error : String
  info : List (String × JsonVal)
deriving DecidableEq, Repr

/-- Modelled from the spec: `UProbeManager::LogAndAttachUProbe` (declared at
uprobe_manager.h lines 470-474, implemented in uprobe_manager.cc, which is
not part of the tree): calls `BCCWrapper::AttachUProbe` and, when the attach
fails, appends to the probe status table a record whose info field is
`spec.ToJSON()` (as the `DISABLED_UProbeDeploymentError` test does, with
address 0 and pid -1 for an unresolved spec). -/
def LogAndAttachUProbe (attachOk : Bool) (errMsg : String) (spec : UProbeSpec) :
    List ProbeStatusRecord :=
  if attachOk then []
  else [⟨"socket_tracer", spec.probe_fn, StatusCode.INTERNAL, errMsg,
         uprobeSpecToJSON spec 0 (-1)⟩]

/-- Claim C9: every probe-status row emitted for a uprobe attach event has an
info_json containing at minimum the keys binary, symbol, address, pid, type
(attach mode), and probe_fn. -/
theorem probe_status_info_json_keys (attachOk : Bool) (errMsg : String)
    (spec : UProbeSpec) (r : ProbeStatusRecord)
    (h : r ∈ LogAndAttachUProbe attachOk errMsg spec) :
    "binary" ∈ r.info.map Prod.fst ∧
    "symbol" ∈ r.info.map Prod.fst ∧
    "address" ∈ r.info.map Prod.fst ∧
    "pid" ∈ r.info.map Prod.fst ∧
    "type" ∈ r.info.map Prod.fst ∧
    "probe_fn" ∈ r.info.map Prod.fst := by
  cases attachOk with
  | true => simp [LogAndAttachUProbe] at h
  | false =>
    simp [LogAndAttachUProbe] at h
    subst h
    simp [uprobeSpecToJSON]

/-- Witness for C9: the failed `SSL_write` entry-probe attach of the
`DISABLED_UProbeDeploymentError` test emits a row whose info_json has all six
keys. -/
theorem probe_status_info_json_keys_witness :
    ((⟨"socket_tracer", "probe_entry_SSL_write", StatusCode.INTERNAL,
        "Can't find start of function probe_entry_SSL_write",
        uprobeSpecToJSON ⟨"/usr/lib/x86_64-linux-gnu/libssl.so.1.1", "SSL_write",
          BPFProbeAttachType.kEntry, "probe_entry_SSL_write"⟩ 0 (-1)⟩ : ProbeStatusRecord)
      ∈ LogAndAttachUProbe false "Can't find start of function probe_entry_SSL_write"
          ⟨"/usr/lib/x86_64-linux-gnu/libssl.so.1.1", "SSL_write",
           BPFProbeAttachType.kEntry, "probe_entry_SSL_write"⟩) ∧
    "binary" ∈ (uprobeSpecToJSON ⟨"/usr/lib/x86_64-linux-gnu/libssl.so.1.1", "SSL_write",
        BPFProbeAttachType.kEntry, "probe_entry_SSL_write"⟩ 0 (-1)).map Prod.fst := by
  refine ⟨by decide, ?_⟩
  exact (probe_status_info_json_keys false
    "Can't find start of function probe_entry_SSL_write"
    ⟨"/usr/lib/x86_64-linux-gnu/libssl.so.1.1", "SSL_write",
     BPFProbeAttachType.kEntry, "probe_entry_SSL_write"⟩
    ⟨"socket_tracer", "probe_entry_SSL_write", StatusCode.INTERNAL,
     "Can't find start of function probe_entry_SSL_write",
     uprobeSpecToJSON ⟨"/usr/lib/x86_64-linux-gnu/libssl.so.1.1", "SSL_write",
       BPFProbeAttachType.kEntry, "probe_entry_SSL_write"⟩ 0 (-1)⟩
    (by decide)).1

/-! ## Zero-not-error for inapplicable binaries (C10)

The bodies of `AttachGoRuntimeUProbes`, `AttachGoHTTP2Probes`,
`AttachGoTLSUProbes` and `AttachOpenSSLUProbesOnDynamicLib` live in
uprobe_manager.cc, which is not part of the tree; they are modelled from the
header's documented contracts (uprobe_manager.h lines 401-458): a binary that
is not a (compatible) Go binary, lacks the relevant library, or does not use
OpenSSL yields a successful result with zero uprobes deployed, not an
error. -/

/-- What classification and resolution observe about one target process and
its binary. -/
structure ProcessTarget where
  isGoBinary : Bool
  hasGoTLSSymbols : Bool
  hasHTTP2Symbols : Bool
  usesOpenSSL : Bool
  symaddrWriteOk : Bool
  attachOk : Bool
deriving DecidableEq, Repr

/-- Modelled from the spec: `UProbeManager::AttachGoRuntimeUProbes`
(uprobe_manager.h lines 401-415).  Not a Go binary: `Ok 0`.  Otherwise the
symaddr maps are populated (an error if the write fails) and the Go runtime
template group is attached. -/
def AttachGoRuntimeUProbes (t : ProcessTarget) : Except String Nat :=
  if t.isGoBinary = false then Except.ok 0
  else if t.symaddrWriteOk = false then Except.error "Failed to update Go common symaddrs"
  else Except.ok kGoRuntimeUProbeTmpls.length

/-- Modelled from the spec: `UProbeManager::AttachGoHTTP2Probes`
(uprobe_manager.h lines 417-432).  Not a Go binary, or no Go HTTP2 library:
`Ok 0`. -/
def AttachGoHTTP2Probes (t : ProcessTarget) : Except String Nat :=
  if t.isGoBinary = false then Except.ok 0
  else if t.hasHTTP2Symbols = false then Except.ok 0
  else if t.symaddrWriteOk = false then Except.error "Failed to update Go HTTP2 symaddrs"
  else Except.ok kHTTP2ProbeTmpls.length

/-- Modelled from the spec: `UProbeManager::AttachGoTLSUProbes`
(uprobe_manager.h lines 434-448).  Not a Go binary, or no `crypto/tls`
symbols: `Ok 0`. -/
def AttachGoTLSUProbes (t : ProcessTarget) : Except String Nat :=
  if t.isGoBinary = false then Except.ok 0
  else if t.hasGoTLSSymbols = false then Except.ok 0
  else if t.symaddrWriteOk = false then Except.error "Failed to update Go TLS symaddrs"
  else Except.ok kGoTLSUProbeTmpls.length

/-- Modelled from the spec: `UProbeManager::AttachOpenSSLUProbesOnDynamicLib`
(uprobe_manager.h lines 450-458).  A process that does not use the OpenSSL
dynamic library: `Ok 0`; otherwise the five `kOpenSSLUProbes` are attached. -/
def AttachOpenSSLUProbesOnDynamicLib (t : ProcessTarget) : Except String Nat :=
  if t.usesOpenSSL = false then Except.ok 0
  else if t.attachOk = false then Except.error "Failed to attach OpenSSL uprobes"
  else Except.ok kOpenSSLUProbes.length

/-- Claim C10: for a binary that is not a Go binary, the three Go attach
functions return success with zero uprobes deployed rather than an error; a
Go binary that lacks the relevant library is likewise no error — zero from
`AttachGoHTTP2Probes` without a Go HTTP2 library and zero from
`AttachGoTLSUProbes` without `crypto/tls` — and
`AttachOpenSSLUProbesOnDynamicLib` returns zero, not an error, for a process
that does not use OpenSSL. -/
theorem attach_zero_not_error (t : ProcessTarget) :
    (t.isGoBinary = false →
      AttachGoRuntimeUProbes t = Except.ok 0 ∧
      AttachGoHTTP2Probes t = Except.ok 0 ∧
      AttachGoTLSUProbes t = Except.ok 0) ∧
    (t.hasHTTP2Symbols = false →
      AttachGoHTTP2Probes t = Except.ok 0) ∧
    (t.hasGoTLSSymbols = false →
      AttachGoTLSUProbes t = Except.ok 0) ∧
    (t.usesOpenSSL = false →
      AttachOpenSSLUProbesOnDynamicLib t = Except.ok 0) := by
  refine ⟨?_, ?_, ?_, ?_⟩
  · intro h
    refine ⟨?_, ?_, ?_⟩ <;>
      simp [AttachGoRuntimeUProbes, AttachGoHTTP2Probes, AttachGoTLSUProbes, h]
  · intro h
    by_cases hg : t.isGoBinary = false <;> simp [AttachGoHTTP2Probes, h, hg]
  · intro h
    by_cases hg : t.isGoBinary = false <;> simp [AttachGoTLSUProbes, h, hg]
  · intro h
    simp [AttachOpenSSLUProbesOnDynamicLib, h]

/-- Witness for C10: a non-Go process gets zero from the Go runtime attach,
and a Go binary that has neither a Go HTTP2 library nor `crypto/tls` and does
not use OpenSSL gets zero uprobes from the other three attach functions, with
no error. -/
theorem attach_zero_not_error_witness :
    AttachGoRuntimeUProbes ⟨false, false, false, false, true, true⟩ = Except.ok 0 ∧
    AttachGoHTTP2Probes ⟨true, false, false, false, true, true⟩ = Except.ok 0 ∧
    AttachGoTLSUProbes ⟨true, false, false, false, true, true⟩ = Except.ok 0 ∧
    AttachOpenSSLUProbesOnDynamicLib ⟨true, false, false, false, true, true⟩
      = Except.ok 0 := by
  have h1 := attach_zero_not_error ⟨false, false, false, false, true, true⟩
  have h2 := attach_zero_not_error ⟨true, false, false, false, true, true⟩
  exact ⟨(h1.1 (by decide)).1, h2.2.1 (by decide), h2.2.2.1 (by decide),
    h2.2.2.2 (by decide)⟩

end PixieSpec
